import Mathlib

/-!
Verification of the black-hole builder library.

Two variants of the library are embedded here, each faithful to its Rust
source file:

* `SM` — the typestate ("state machine") builder from
  `4-state-machine/src/universe/mod.rs`.  The builder is a structure indexed
  by a stage value; each operation is declared only at the stage where the
  source declares it, mirroring the Rust phantom-marker typestate.
* `SB` — the runtime-optional ("simple") builder from
  `2-simple-builder/src/universe/mod.rs`, whose builder stores every
  non-name field as an `Option` and whose `build` substitutes defaults.

Modelling conventions:
* `f64` fields are only ever stored, moved and compared for equality in the
  source (no floating-point arithmetic occurs in the builder), so they are
  modelled by the exact carrier `Rat`.
* `u16` is modelled by `Nat` (the year is only stored, never computed with).
* `&str`/`String` are modelled by `String`; `.to_string()` on the borrowed
  argument is the identity under this modelling.
* Rust's `Into<Option<T>>` setter arguments in the `SB` variant are modelled
  by the post-conversion value `Option T`.
* Methods taking `&self` (such as `build_copy`) are pure functions of the
  builder; methods taking `self` consume it, which the embedding reflects by
  only ever using the returned value.
-/

/-- The `Type` enum of both sources (`pub enum Type`); `Type` is reserved in
Lean, hence the prime. -/
inductive Type' where
  | SuperMassive
  | IntermediateMassive
  | Stellar
  | Micro
  deriving DecidableEq, Repr

/-- The `BlackHole` record.  Both source variants declare it with exactly
these fields: three mandatory fields (`name`, `discovered_by`,
`year_of_discovery`) and four optional fields. -/
structure BlackHole where
  name : String
  discovered_by : String
  year_of_discovery : Nat
  mass : Option Rat
  angular_momentum : Option Rat
  electric_charge : Option Rat
  classification : Option Type'
  deriving DecidableEq, Repr

namespace SM

/-- `const INITIAL_NAME: &'static str = "Unknown";` -/
def INITIAL_NAME : String := "Unknown"

/-- `const DEFAULT_DISCOVERED_YEAR: u16 = 2017;` -/
def DEFAULT_DISCOVERED_YEAR : Nat := 2017

/-- The stage markers of the typestate builder: `NameBuilder`,
`DiscoveredByBuilder`, `YearOfDiscoveryBuilder`, `OptionalParamsBuilder`
(the unit structs implementing `trait State` in the source). -/
inductive State where
  | NameBuilder
  | DiscoveredByBuilder
  | YearOfDiscoveryBuilder
  | OptionalParamsBuilder
  deriving DecidableEq, Repr

/-- `pub struct BlackHoleBuilder<S: State> \x7b black_hole: BlackHole, state: S \x7d`.
The stage marker carries no data, so the builder is indexed by the stage
value and stores only the in-progress record. -/
structure BlackHoleBuilder (s : State) where
  black_hole : BlackHole
  deriving DecidableEq, Repr

/-- `fn transition<X: State + From<T>>(self, state: X) -> BlackHoleBuilder<X>`:
repackages the wrapped record under the next stage marker.  (Private in the
source; the public API below is the only way builders are produced.) -/
def BlackHoleBuilder.transition {t : State} (b : BlackHoleBuilder t) (x : State) :
    BlackHoleBuilder x :=
  { black_hole := b.black_hole }

/-- `BlackHoleBuilder::new` — the entry point.  It takes no argument and
initialises every mandatory field to an internal placeholder
(`INITIAL_NAME` twice, `DEFAULT_DISCOVERED_YEAR`) and every optional field
to `None`. -/
def BlackHoleBuilder.new : BlackHoleBuilder State.NameBuilder :=
  { black_hole :=
      { name := INITIAL_NAME
        discovered_by := INITIAL_NAME
        year_of_discovery := DEFAULT_DISCOVERED_YEAR
        mass := none
        angular_momentum := none
        electric_charge := none
        classification := none } }

/-- `pub fn name(mut self, name: &str) -> BlackHoleBuilder<DiscoveredByBuilder>`
— only available at stage `NameBuilder`. -/
def BlackHoleBuilder.name (b : BlackHoleBuilder State.NameBuilder) (n : String) :
    BlackHoleBuilder State.DiscoveredByBuilder :=
  BlackHoleBuilder.transition
    ({ b with black_hole := { b.black_hole with name := n } } :
      BlackHoleBuilder State.NameBuilder)
    State.DiscoveredByBuilder

/-- `pub fn discovered_by(mut self, discovered_by: &str) ->
BlackHoleBuilder<YearOfDiscoveryBuilder>` — only available at stage
`DiscoveredByBuilder`. -/
def BlackHoleBuilder.discovered_by (b : BlackHoleBuilder State.DiscoveredByBuilder)
    (d : String) : BlackHoleBuilder State.YearOfDiscoveryBuilder :=
  BlackHoleBuilder.transition
    ({ b with black_hole := { b.black_hole with discovered_by := d } } :
      BlackHoleBuilder State.DiscoveredByBuilder)
    State.YearOfDiscoveryBuilder

/-- `pub fn year_of_discovery(mut self, year_of_discovery: u16) ->
BlackHoleBuilder<OptionalParamsBuilder>` — only available at stage
`YearOfDiscoveryBuilder`. -/
def BlackHoleBuilder.year_of_discovery
    (b : BlackHoleBuilder State.YearOfDiscoveryBuilder) (y : Nat) :
    BlackHoleBuilder State.OptionalParamsBuilder :=
  BlackHoleBuilder.transition
    ({ b with black_hole := { b.black_hole with year_of_discovery := y } } :
      BlackHoleBuilder State.YearOfDiscoveryBuilder)
    State.OptionalParamsBuilder

/-- `pub fn mass(mut self, mass: f64) -> Self` — terminal stage only. -/
def BlackHoleBuilder.mass (b : BlackHoleBuilder State.OptionalParamsBuilder)
    (v : Rat) : BlackHoleBuilder State.OptionalParamsBuilder :=
  { b with black_hole := { b.black_hole with mass := some v } }

/-- `pub fn angular_momentum(mut self, angular_momentum: f64) -> Self` —
terminal stage only. -/
def BlackHoleBuilder.angular_momentum
    (b : BlackHoleBuilder State.OptionalParamsBuilder) (v : Rat) :
    BlackHoleBuilder State.OptionalParamsBuilder :=
  { b with black_hole := { b.black_hole with angular_momentum := some v } }

/-- `pub fn electric_charge(mut self, electric_charge: f64) -> Self` —
terminal stage only. -/
def BlackHoleBuilder.electric_charge
    (b : BlackHoleBuilder State.OptionalParamsBuilder) (v : Rat) :
    BlackHoleBuilder State.OptionalParamsBuilder :=
  { b with black_hole := { b.black_hole with electric_charge := some v } }

/-- `pub fn classification(mut self, classification: Type) -> Self` —
terminal stage only. -/
def BlackHoleBuilder.classification
    (b : BlackHoleBuilder State.OptionalParamsBuilder) (t : Type') :
    BlackHoleBuilder State.OptionalParamsBuilder :=
  { b with black_hole := { b.black_hole with classification := some t } }

/-- `pub fn build(self) -> BlackHole \x7b self.black_hole \x7d` — consumes the
terminal-stage builder and returns the wrapped record unchanged (no default
substitution happens here). -/
def BlackHoleBuilder.build (b : BlackHoleBuilder State.OptionalParamsBuilder) :
    BlackHole :=
  b.black_hole

/-- `pub fn build_copy(&self) -> BlackHole` — clones the wrapped record
field by field without consuming the builder. -/
def BlackHoleBuilder.build_copy
    (b : BlackHoleBuilder State.OptionalParamsBuilder) : BlackHole :=
  { name := b.black_hole.name
    discovered_by := b.black_hole.discovered_by
    year_of_discovery := b.black_hole.year_of_discovery
    mass := b.black_hole.mass
    angular_momentum := b.black_hole.angular_momentum
    electric_charge := b.black_hole.electric_charge
    classification := b.black_hole.classification }

/-- `impl BlackHole \x7b pub fn new() -> BlackHoleBuilder<NameBuilder> \x7d`. -/
def BlackHole.new : BlackHoleBuilder State.NameBuilder :=
  BlackHoleBuilder.new

/-- One call to an optional setter at the terminal stage, with its
argument. -/
inductive OptCall where
  | mass (v : Rat)
  | angular_momentum (v : Rat)
  | electric_charge (v : Rat)
  | classification (t : Type')
  deriving DecidableEq, Repr

/-- Apply one optional-setter call to a terminal-stage builder. -/
def applyOpt (b : BlackHoleBuilder State.OptionalParamsBuilder) :
    OptCall → BlackHoleBuilder State.OptionalParamsBuilder
  | OptCall.mass v => b.mass v
  | OptCall.angular_momentum v => b.angular_momentum v
  | OptCall.electric_charge v => b.electric_charge v
  | OptCall.classification t => b.classification t

/-- Apply a list of optional-setter calls, left to right. -/
def applyOpts (b : BlackHoleBuilder State.OptionalParamsBuilder)
    (cs : List OptCall) : BlackHoleBuilder State.OptionalParamsBuilder :=
  cs.foldl applyOpt b

/-- The mandatory chain in the declared order:
`new().name(n).discovered_by(d).year_of_discovery(y)`. -/
def mandatoryChain (n d : String) (y : Nat) :
    BlackHoleBuilder State.OptionalParamsBuilder :=
  ((BlackHoleBuilder.new.name n).discovered_by d).year_of_discovery y

/-- The value of the `mass` field after running the calls `cs` starting
from the value `a`: the argument of the last `mass` call, or `a` if there is
none. -/
def massAfter (cs : List OptCall) (a : Option Rat) : Option Rat :=
  cs.foldl (fun a c => match c with | OptCall.mass v => some v | _ => a) a

/-- The value of the `angular_momentum` field after running `cs` from `a`. -/
def amAfter (cs : List OptCall) (a : Option Rat) : Option Rat :=
  cs.foldl (fun a c => match c with | OptCall.angular_momentum v => some v | _ => a) a

/-- The value of the `electric_charge` field after running `cs` from `a`. -/
def ecAfter (cs : List OptCall) (a : Option Rat) : Option Rat :=
  cs.foldl (fun a c => match c with | OptCall.electric_charge v => some v | _ => a) a

/-- The value of the `classification` field after running `cs` from `a`. -/
def clAfter (cs : List OptCall) (a : Option Type') : Option Type' :=
  cs.foldl (fun a c => match c with | OptCall.classification t => some t | _ => a) a

/-- The builder states reachable through the public API: start at
`BlackHoleBuilder.new`, then apply only the operations that exist at the
current stage.  This is exactly the call graph the Rust type system admits:
each constructor's typing mirrors which method is declared on which
`impl BlackHoleBuilder<Stage>` block. -/
inductive Reaches : (s : State) → BlackHoleBuilder s → Prop where
  | new : Reaches State.NameBuilder BlackHoleBuilder.new
  | name (n : String) {b : BlackHoleBuilder State.NameBuilder} :
      Reaches State.NameBuilder b → Reaches State.DiscoveredByBuilder (b.name n)
  | discovered_by (d : String) {b : BlackHoleBuilder State.DiscoveredByBuilder} :
      Reaches State.DiscoveredByBuilder b →
      Reaches State.YearOfDiscoveryBuilder (b.discovered_by d)
  | year_of_discovery (y : Nat) {b : BlackHoleBuilder State.YearOfDiscoveryBuilder} :
      Reaches State.YearOfDiscoveryBuilder b →
      Reaches State.OptionalParamsBuilder (b.year_of_discovery y)
  | mass (v : Rat) {b : BlackHoleBuilder State.OptionalParamsBuilder} :
      Reaches State.OptionalParamsBuilder b →
      Reaches State.OptionalParamsBuilder (b.mass v)
  | angular_momentum (v : Rat) {b : BlackHoleBuilder State.OptionalParamsBuilder} :
      Reaches State.OptionalParamsBuilder b →
      Reaches State.OptionalParamsBuilder (b.angular_momentum v)
  | electric_charge (v : Rat) {b : BlackHoleBuilder State.OptionalParamsBuilder} :
      Reaches State.OptionalParamsBuilder b →
      Reaches State.OptionalParamsBuilder (b.electric_charge v)
  | classification (t : Type') {b : BlackHoleBuilder State.OptionalParamsBuilder} :
      Reaches State.OptionalParamsBuilder b →
      Reaches State.OptionalParamsBuilder (b.classification t)

/-- Canonical form of a reachable builder at each stage: the builder is
exactly the declared-order chain of the transitions performed so far. -/
def StageSpec : (s : State) → BlackHoleBuilder s → Prop
  | State.NameBuilder, b => b = BlackHoleBuilder.new
  | State.DiscoveredByBuilder, b => ∃ n, b = BlackHoleBuilder.new.name n
  | State.YearOfDiscoveryBuilder, b =>
      ∃ n d, b = (BlackHoleBuilder.new.name n).discovered_by d
  | State.OptionalParamsBuilder, b =>
      ∃ n d y cs, b = applyOpts (mandatoryChain n d y) cs

/-- One action in a terminal-stage session: either an optional-setter call or
a `build_copy` snapshot. -/
inductive TAct where
  | set (c : OptCall)
  | snap
  deriving DecidableEq, Repr

/-- The builder state after running the actions of a session (snapshots do
not change it, mirroring `build_copy(&self)`). -/
def applyActs (b : BlackHoleBuilder State.OptionalParamsBuilder) :
    List TAct → BlackHoleBuilder State.OptionalParamsBuilder
  | [] => b
  | TAct.set c :: rest => applyActs (applyOpt b c) rest
  | TAct.snap :: rest => applyActs b rest

/-- Run a terminal-stage session, collecting the records returned by the
snapshots in order. -/
def runSession (b : BlackHoleBuilder State.OptionalParamsBuilder) :
    List TAct → List BlackHole
  | [] => []
  | TAct.set c :: rest => runSession (applyOpt b c) rest
  | TAct.snap :: rest => b.build_copy :: runSession b rest

end SM

namespace SB

/-- `const DEFAULT_DISCOVERED_BY: &'static str = "Unknown";` -/
def DEFAULT_DISCOVERED_BY : String := "Unknown"

/-- `const DEFAULT_DISCOVERED_YEAR: u16 = 2017;` -/
def DEFAULT_DISCOVERED_YEAR : Nat := 2017

/-- `pub struct BlackHoleBuilder` of the simple variant: the name is held
directly, every other field as an `Option`. -/
structure BlackHoleBuilder where
  name : String
  discovered_by : Option String
  year_of_discovery : Option Nat
  mass : Option Rat
  angular_momentum : Option Rat
  electric_charge : Option Rat
  classification : Option Type'
  deriving DecidableEq, Repr

/-- `pub fn new(name: &str) -> BlackHoleBuilder`: the entry point takes the
name and leaves every other field `None`. -/
def BlackHoleBuilder.new (name : String) : BlackHoleBuilder :=
  { name := name
    discovered_by := none
    year_of_discovery := none
    mass := none
    angular_momentum := none
    electric_charge := none
    classification := none }

/-- `pub fn discovered_by<I: Into<Option<String>>>(mut self, v: I) -> Self`,
modelled on the post-conversion `Option` value.  The prime avoids a clash
with the structure field of the same source name. -/
def BlackHoleBuilder.discovered_by' (b : BlackHoleBuilder) (v : Option String) :
    BlackHoleBuilder :=
  { b with discovered_by := v }

/-- `pub fn year_of_discovery<I: Into<Option<u16>>>(mut self, v: I) -> Self`. -/
def BlackHoleBuilder.year_of_discovery' (b : BlackHoleBuilder) (v : Option Nat) :
    BlackHoleBuilder :=
  { b with year_of_discovery := v }

/-- `pub fn mass<I: Into<Option<f64>>>(mut self, v: I) -> Self`. -/
def BlackHoleBuilder.mass' (b : BlackHoleBuilder) (v : Option Rat) :
    BlackHoleBuilder :=
  { b with mass := v }

/-- `pub fn angular_momentum<I: Into<Option<f64>>>(mut self, v: I) -> Self`. -/
def BlackHoleBuilder.angular_momentum' (b : BlackHoleBuilder) (v : Option Rat) :
    BlackHoleBuilder :=
  { b with angular_momentum := v }

/-- `pub fn electric_charge<I: Into<Option<f64>>>(mut self, v: I) -> Self`. -/
def BlackHoleBuilder.electric_charge' (b : BlackHoleBuilder) (v : Option Rat) :
    BlackHoleBuilder :=
  { b with electric_charge := v }

/-- `pub fn classification<I: Into<Option<Type>>>(mut self, v: I) -> Self`. -/
def BlackHoleBuilder.classification' (b : BlackHoleBuilder) (v : Option Type') :
    BlackHoleBuilder :=
  { b with classification := v }

/-- `pub fn build(self) -> BlackHole`: substitutes `DEFAULT_DISCOVERED_BY`
for a missing `discovered_by` (`unwrap_or`) and `DEFAULT_DISCOVERED_YEAR`
for a missing `year_of_discovery`; the four optional fields are moved over
unchanged. -/
def BlackHoleBuilder.build (b : BlackHoleBuilder) : BlackHole :=
  { name := b.name
    discovered_by := b.discovered_by.getD DEFAULT_DISCOVERED_BY
    year_of_discovery := b.year_of_discovery.getD DEFAULT_DISCOVERED_YEAR
    mass := b.mass
    angular_momentum := b.angular_momentum
    electric_charge := b.electric_charge
    classification := b.classification }

/-- `pub fn build_copy(&self) -> BlackHole`: clones every field;
`discovered_by` goes through `map_or_else(|| DEFAULT, |v| v.clone())`,
`year_of_discovery` through `unwrap_or(DEFAULT)`. -/
def BlackHoleBuilder.build_copy (b : BlackHoleBuilder) : BlackHole :=
  { name := b.name
    discovered_by := b.discovered_by.elim DEFAULT_DISCOVERED_BY (fun v => v)
    year_of_discovery := b.year_of_discovery.getD DEFAULT_DISCOVERED_YEAR
    mass := b.mass
    angular_momentum := b.angular_momentum
    electric_charge := b.electric_charge
    classification := b.classification }

end SB

/-! ## Helper lemmas -/

namespace SM

theorem applyOpts_nil (b : BlackHoleBuilder State.OptionalParamsBuilder) :
    applyOpts b [] = b := rfl

theorem applyOpts_cons (b : BlackHoleBuilder State.OptionalParamsBuilder)
    (c : OptCall) (cs : List OptCall) :
    applyOpts b (c :: cs) = applyOpts (applyOpt b c) cs := rfl

theorem applyOpts_append (b : BlackHoleBuilder State.OptionalParamsBuilder)
    (cs ds : List OptCall) :
    applyOpts b (cs ++ ds) = applyOpts (applyOpts b cs) ds := by
  simp [applyOpts, List.foldl_append]

/-- Running optional-setter calls never touches the mandatory fields, and
sets each optional field to the fold of its own calls. -/
theorem applyOpts_black_hole (cs : List OptCall) :
    ∀ b : BlackHoleBuilder State.OptionalParamsBuilder,
      (applyOpts b cs).black_hole =
        { name := b.black_hole.name
          discovered_by := b.black_hole.discovered_by
          year_of_discovery := b.black_hole.year_of_discovery
          mass := massAfter cs b.black_hole.mass
          angular_momentum := amAfter cs b.black_hole.angular_momentum
          electric_charge := ecAfter cs b.black_hole.electric_charge
          classification := clAfter cs b.black_hole.classification } := by
  induction cs with
  | nil => intro b; rfl
  | cons c cs ih =>
    intro b
    rw [applyOpts_cons, ih]
    cases c <;> rfl

theorem mandatoryChain_black_hole (n d : String) (y : Nat) :
    (mandatoryChain n d y).black_hole =
      { name := n
        discovered_by := d
        year_of_discovery := y
        mass := none
        angular_momentum := none
        electric_charge := none
        classification := none } := rfl

/-- Every builder reachable through the public API is in the canonical form
of its stage. -/
theorem reaches_stageSpec {s : State} {b : BlackHoleBuilder s}
    (h : Reaches s b) : StageSpec s b := by
  induction h with
  | new => rfl
  | name n h ih => exact ⟨n, by rw [ih]⟩
  | discovered_by d h ih =>
    obtain ⟨n, rfl⟩ := ih
    exact ⟨n, d, rfl⟩
  | year_of_discovery y h ih =>
    obtain ⟨n, d, rfl⟩ := ih
    exact ⟨n, d, y, [], rfl⟩
  | mass v h ih =>
    obtain ⟨n, d, y, cs, rfl⟩ := ih
    exact ⟨n, d, y, cs ++ [OptCall.mass v], (applyOpts_append _ cs [OptCall.mass v]).symm⟩
  | angular_momentum v h ih =>
    obtain ⟨n, d, y, cs, rfl⟩ := ih
    exact ⟨n, d, y, cs ++ [OptCall.angular_momentum v], (applyOpts_append _ cs [OptCall.angular_momentum v]).symm⟩
  | electric_charge v h ih =>
    obtain ⟨n, d, y, cs, rfl⟩ := ih
    exact ⟨n, d, y, cs ++ [OptCall.electric_charge v], (applyOpts_append _ cs [OptCall.electric_charge v]).symm⟩
  | classification t h ih =>
    obtain ⟨n, d, y, cs, rfl⟩ := ih
    exact ⟨n, d, y, cs ++ [OptCall.classification t], (applyOpts_append _ cs [OptCall.classification t]).symm⟩

theorem runSession_append (acts : List TAct) :
    ∀ (b : BlackHoleBuilder State.OptionalParamsBuilder) (more : List TAct),
      runSession b (acts ++ more) =
        runSession b acts ++ runSession (applyActs b acts) more := by
  induction acts with
  | nil => intro b more; rfl
  | cons a acts ih =>
    intro b more
    cases a with
    | set c => exact ih (applyOpt b c) more
    | snap => simpa [runSession, applyActs] using ih b more

end SM

/-! ## Claim theorems -/

/-- C1: running the mandatory transitions in the declared order
(`name`, then `discovered_by`, then `year_of_discovery`) and then `build`
yields a record whose mandatory fields equal exactly the supplied values;
in particular the concrete chain with "Gargantua", "Dr. Mann", 2400,
mass 1.2e8, charge 2345.6, spin 12345.0 yields exactly that record. -/
theorem mandatory_fields_exact :
    (∀ (n d : String) (y : Nat),
      (((SM.BlackHoleBuilder.new.name n).discovered_by d).year_of_discovery
          y).build.name = n ∧
      (((SM.BlackHoleBuilder.new.name n).discovered_by d).year_of_discovery
          y).build.discovered_by = d ∧
      (((SM.BlackHoleBuilder.new.name n).discovered_by d).year_of_discovery
          y).build.year_of_discovery = y) ∧
    ((((((SM.BlackHoleBuilder.new.name "Gargantua").discovered_by
        "Dr. Mann").year_of_discovery 2400).mass
        (120000000 : Rat)).electric_charge ((11728 : Rat)/5)).angular_momentum
        (12345 : Rat)).build =
      { name := "Gargantua"
        discovered_by := "Dr. Mann"
        year_of_discovery := 2400
        mass := some (120000000 : Rat)
        angular_momentum := some (12345 : Rat)
        electric_charge := some ((11728 : Rat)/5)
        classification := none } :=
  ⟨fun _ _ _ => ⟨rfl, rfl, rfl⟩, rfl⟩

/-- C2: for every subset and ordering of optional-setter calls at the
terminal stage, the built record's optional fields equal the last value set
for each field (the fold of that field's calls), a field never set stays at
its declared default `none`, and a repeated setter call overwrites the
earlier value. -/
theorem optional_last_write_wins :
    (∀ (n d : String) (y : Nat) (cs : List SM.OptCall),
      (SM.applyOpts (SM.mandatoryChain n d y) cs).build.mass =
          SM.massAfter cs none ∧
      (SM.applyOpts (SM.mandatoryChain n d y) cs).build.angular_momentum =
          SM.amAfter cs none ∧
      (SM.applyOpts (SM.mandatoryChain n d y) cs).build.electric_charge =
          SM.ecAfter cs none ∧
      (SM.applyOpts (SM.mandatoryChain n d y) cs).build.classification =
          SM.clAfter cs none) ∧
    (∀ (b : SM.BlackHoleBuilder SM.State.OptionalParamsBuilder) (v w : Rat)
        (t u : Type'),
      (b.mass v).mass w = b.mass w ∧
      (b.angular_momentum v).angular_momentum w = b.angular_momentum w ∧
      (b.electric_charge v).electric_charge w = b.electric_charge w ∧
      (b.classification t).classification u = b.classification u) := by
  constructor
  · intro n d y cs
    have h := SM.applyOpts_black_hole cs (SM.mandatoryChain n d y)
    refine ⟨?_, ?_, ?_, ?_⟩ <;>
      simp [SM.BlackHoleBuilder.build, h, SM.mandatoryChain_black_hole]
  · intro b v w t u
    exact ⟨rfl, rfl, rfl, rfl⟩

/-- C3: on any terminal-stage builder state, the non-consuming `build_copy`
returns a record field-wise equal to what the consuming `build` returns on
the same state (in both variants, including the simple variant's default
substitution), and a snapshot leaves the builder state unchanged for the
rest of the session. -/
theorem build_copy_eq_build :
    (∀ b : SM.BlackHoleBuilder SM.State.OptionalParamsBuilder,
      b.build_copy = b.build) ∧
    (∀ b : SB.BlackHoleBuilder, b.build_copy = b.build) ∧
    (∀ (b : SM.BlackHoleBuilder SM.State.OptionalParamsBuilder)
        (acts : List SM.TAct),
      SM.runSession b (SM.TAct.snap :: acts) =
        b.build_copy :: SM.runSession b acts) := by
  refine ⟨fun b => rfl, fun b => ?_, fun b acts => rfl⟩
  cases h : b.discovered_by <;>
    simp [SB.BlackHoleBuilder.build, SB.BlackHoleBuilder.build_copy, h]

/-- C4 (counterexample): in the typestate variant the entry point
`BlackHoleBuilder::new` takes no argument, and the stage-S1 builder it
returns wraps a record whose identifying `name` field equals the internal
placeholder `INITIAL_NAME` = "Unknown" — the same placeholder as the
other mandatory fields — rather than any caller-supplied value. -/
theorem entry_point_name_placeholder :
    SM.BlackHoleBuilder.new.black_hole.name = SM.INITIAL_NAME ∧
    SM.BlackHoleBuilder.new.black_hole.discovered_by = SM.INITIAL_NAME ∧
    SM.INITIAL_NAME = "Unknown" ∧
    SM.BlackHole.new = SM.BlackHoleBuilder.new :=
  ⟨rfl, rfl, rfl, rfl⟩

/-- C4 (amended): in the typestate variant the entry point takes no
argument and returns a stage-S1 builder whose record has every mandatory
field at the internal placeholder ("Unknown", "Unknown", 2017) and every
optional field absent; the identifying name is supplied by the S1
transition `name`.  In the runtime-optional variant, `new(name)` does take
the name and returns a builder with that field set to the supplied value
and every other field absent.  Both entry points are total. -/
theorem entry_point_initial_state :
    SM.BlackHoleBuilder.new.black_hole =
      { name := SM.INITIAL_NAME
        discovered_by := SM.INITIAL_NAME
        year_of_discovery := SM.DEFAULT_DISCOVERED_YEAR
        mass := none
        angular_momentum := none
        electric_charge := none
        classification := none } ∧
    (∀ n, (SM.BlackHoleBuilder.new.name n).black_hole =
      { name := n
        discovered_by := SM.INITIAL_NAME
        year_of_discovery := SM.DEFAULT_DISCOVERED_YEAR
        mass := none
        angular_momentum := none
        electric_charge := none
        classification := none }) ∧
    (∀ n, SB.BlackHoleBuilder.new n =
      { name := n
        discovered_by := none
        year_of_discovery := none
        mass := none
        angular_momentum := none
        electric_charge := none
        classification := none }) :=
  ⟨rfl, fun _ => rfl, fun _ => rfl⟩

/-- C5: every terminal-stage builder reachable through the public API is
exactly the declared-order mandatory chain followed by optional-setter
calls, so no sequence of API calls ever produces a record from a finalizer
without `name`, `discovered_by` and `year_of_discovery` having been
supplied in the declared order; the finalizers then report exactly the
supplied mandatory values.  (The stage-indexing of the embedding mirrors
the Rust typestate: each operation exists only at its own stage.) -/
theorem reachable_terminal_canonical :
    ∀ b : SM.BlackHoleBuilder SM.State.OptionalParamsBuilder,
      SM.Reaches SM.State.OptionalParamsBuilder b →
      ∃ (n d : String) (y : Nat) (cs : List SM.OptCall),
        b = SM.applyOpts (SM.mandatoryChain n d y) cs ∧
        b.build.name = n ∧
        b.build.discovered_by = d ∧
        b.build.year_of_discovery = y ∧
        b.build_copy = b.build := by
  intro b h
  obtain ⟨n, d, y, cs, rfl⟩ :=
    (SM.reaches_stageSpec h :
      ∃ (n d : String) (y : Nat) (cs : List SM.OptCall),
        b = SM.applyOpts (SM.mandatoryChain n d y) cs)
  have hb := SM.applyOpts_black_hole cs (SM.mandatoryChain n d y)
  refine ⟨n, d, y, cs, rfl, ?_, ?_, ?_, rfl⟩ <;>
    simp [SM.BlackHoleBuilder.build, hb, SM.mandatoryChain_black_hole]

/-- Witness for C5 at the concrete reachable builder
`new().name("Gargantua").discovered_by("Dr. Mann").year_of_discovery(2400)
.mass(5)`. -/
theorem reachable_terminal_canonical_witness :
    ∃ (n d : String) (y : Nat) (cs : List SM.OptCall),
      (SM.mandatoryChain "Gargantua" "Dr. Mann" 2400).mass 5 =
        SM.applyOpts (SM.mandatoryChain n d y) cs ∧
      ((SM.mandatoryChain "Gargantua" "Dr. Mann" 2400).mass 5).build.name = n ∧
      ((SM.mandatoryChain "Gargantua" "Dr. Mann" 2400).mass
          5).build.discovered_by = d ∧
      ((SM.mandatoryChain "Gargantua" "Dr. Mann" 2400).mass
          5).build.year_of_discovery = y ∧
      ((SM.mandatoryChain "Gargantua" "Dr. Mann" 2400).mass 5).build_copy =
        ((SM.mandatoryChain "Gargantua" "Dr. Mann" 2400).mass 5).build :=
  reachable_terminal_canonical _
    (SM.Reaches.mass 5
      (SM.Reaches.year_of_discovery 2400
        (SM.Reaches.discovered_by "Dr. Mann"
          (SM.Reaches.name "Gargantua" SM.Reaches.new))))

/-- C6: two snapshots taken with no intervening mutation are the same
record, and records already produced by a session are never affected by
anything the session does later (the later actions only extend the output
list). -/
theorem snapshots_equal_and_independent :
    (∀ (b : SM.BlackHoleBuilder SM.State.OptionalParamsBuilder)
        (rest : List SM.TAct),
      SM.runSession b (SM.TAct.snap :: SM.TAct.snap :: rest) =
        b.build_copy :: b.build_copy :: SM.runSession b rest) ∧
    (∀ (b : SM.BlackHoleBuilder SM.State.OptionalParamsBuilder)
        (acts more : List SM.TAct),
      SM.runSession b (acts ++ more) =
        SM.runSession b acts ++
          SM.runSession (SM.applyActs b acts) more) :=
  ⟨fun _ _ => rfl, fun b acts more => SM.runSession_append acts b more⟩

/-- C7: each optional setter changes only its own field of the snapshot —
the snapshot after the call is the snapshot before the call with exactly
that one field replaced by the value just set. -/
theorem optional_setter_frame :
    ∀ (b : SM.BlackHoleBuilder SM.State.OptionalParamsBuilder) (v : Rat)
        (t : Type'),
      (b.mass v).build_copy = { b.build_copy with mass := some v } ∧
      (b.angular_momentum v).build_copy =
        { b.build_copy with angular_momentum := some v } ∧
      (b.electric_charge v).build_copy =
        { b.build_copy with electric_charge := some v } ∧
      (b.classification t).build_copy =
        { b.build_copy with classification := some t } :=
  fun _ _ _ => ⟨rfl, rfl, rfl, rfl⟩

/-- C8: stage invariant over all reachable builders — at each stage the
mandatory fields of the earlier stages hold exactly the caller-supplied
values and the later mandatory fields still hold their placeholders; each
mandatory transition rewrites only its own field. -/
theorem stage_invariant :
    (∀ b : SM.BlackHoleBuilder SM.State.NameBuilder,
      SM.Reaches SM.State.NameBuilder b →
      b.black_hole =
        { name := SM.INITIAL_NAME
          discovered_by := SM.INITIAL_NAME
          year_of_discovery := SM.DEFAULT_DISCOVERED_YEAR
          mass := none
          angular_momentum := none
          electric_charge := none
          classification := none }) ∧
    (∀ b : SM.BlackHoleBuilder SM.State.DiscoveredByBuilder,
      SM.Reaches SM.State.DiscoveredByBuilder b →
      ∃ n, b.black_hole =
        { name := n
          discovered_by := SM.INITIAL_NAME
          year_of_discovery := SM.DEFAULT_DISCOVERED_YEAR
          mass := none
          angular_momentum := none
          electric_charge := none
          classification := none }) ∧
    (∀ b : SM.BlackHoleBuilder SM.State.YearOfDiscoveryBuilder,
      SM.Reaches SM.State.YearOfDiscoveryBuilder b →
      ∃ n d, b.black_hole =
        { name := n
          discovered_by := d
          year_of_discovery := SM.DEFAULT_DISCOVERED_YEAR
          mass := none
          angular_momentum := none
          electric_charge := none
          classification := none }) ∧
    (∀ b : SM.BlackHoleBuilder SM.State.OptionalParamsBuilder,
      SM.Reaches SM.State.OptionalParamsBuilder b →
      ∃ (n d : String) (y : Nat) (cs : List SM.OptCall),
        b = SM.applyOpts (SM.mandatoryChain n d y) cs ∧
        b.black_hole.name = n ∧
        b.black_hole.discovered_by = d ∧
        b.black_hole.year_of_discovery = y) ∧
    (∀ (b : SM.BlackHoleBuilder SM.State.NameBuilder) (n : String),
      (b.name n).black_hole = { b.black_hole with name := n }) ∧
    (∀ (b : SM.BlackHoleBuilder SM.State.DiscoveredByBuilder) (d : String),
      (b.discovered_by d).black_hole =
        { b.black_hole with discovered_by := d }) ∧
    (∀ (b : SM.BlackHoleBuilder SM.State.YearOfDiscoveryBuilder) (y : Nat),
      (b.year_of_discovery y).black_hole =
        { b.black_hole with year_of_discovery := y }) := by
  refine ⟨?_, ?_, ?_, ?_, fun b n => rfl, fun b d => rfl, fun b y => rfl⟩
  · intro b h
    have hb : b = SM.BlackHoleBuilder.new := SM.reaches_stageSpec h
    rw [hb]
    rfl
  · intro b h
    obtain ⟨n, rfl⟩ :=
      (SM.reaches_stageSpec h : ∃ n, b = SM.BlackHoleBuilder.new.name n)
    exact ⟨n, rfl⟩
  · intro b h
    obtain ⟨n, d, rfl⟩ :=
      (SM.reaches_stageSpec h :
        ∃ n d, b = (SM.BlackHoleBuilder.new.name n).discovered_by d)
    exact ⟨n, d, rfl⟩
  · intro b h
    obtain ⟨n, d, y, cs, rfl⟩ :=
      (SM.reaches_stageSpec h :
        ∃ (n d : String) (y : Nat) (cs : List SM.OptCall),
          b = SM.applyOpts (SM.mandatoryChain n d y) cs)
    have hb := SM.applyOpts_black_hole cs (SM.mandatoryChain n d y)
    refine ⟨n, d, y, cs, rfl, ?_, ?_, ?_⟩ <;>
      simp [hb, SM.mandatoryChain_black_hole]

/-- Witness for C8 at one concrete reachable builder per stage. -/
theorem stage_invariant_witness :
    SM.BlackHoleBuilder.new.black_hole =
      { name := SM.INITIAL_NAME
        discovered_by := SM.INITIAL_NAME
        year_of_discovery := SM.DEFAULT_DISCOVERED_YEAR
        mass := none
        angular_momentum := none
        electric_charge := none
        classification := none } ∧
    (∃ n, (SM.BlackHoleBuilder.new.name "Gargantua").black_hole =
      { name := n
        discovered_by := SM.INITIAL_NAME
        year_of_discovery := SM.DEFAULT_DISCOVERED_YEAR
        mass := none
        angular_momentum := none
        electric_charge := none
        classification := none }) ∧
    (∃ n d,
      ((SM.BlackHoleBuilder.new.name "Gargantua").discovered_by
          "Dr. Mann").black_hole =
        { name := n
          discovered_by := d
          year_of_discovery := SM.DEFAULT_DISCOVERED_YEAR
          mass := none
          angular_momentum := none
          electric_charge := none
          classification := none }) ∧
    (∃ (n d : String) (y : Nat) (cs : List SM.OptCall),
      SM.mandatoryChain "Gargantua" "Dr. Mann" 2400 =
        SM.applyOpts (SM.mandatoryChain n d y) cs ∧
      (SM.mandatoryChain "Gargantua" "Dr. Mann" 2400).black_hole.name = n ∧
      (SM.mandatoryChain "Gargantua" "Dr. Mann"
          2400).black_hole.discovered_by = d ∧
      (SM.mandatoryChain "Gargantua" "Dr. Mann"
          2400).black_hole.year_of_discovery = y) :=
  ⟨stage_invariant.1 _ SM.Reaches.new,
   stage_invariant.2.1 _ (SM.Reaches.name "Gargantua" SM.Reaches.new),
   stage_invariant.2.2.1 _
     (SM.Reaches.discovered_by "Dr. Mann"
       (SM.Reaches.name "Gargantua" SM.Reaches.new)),
   stage_invariant.2.2.2.1 _
     (SM.Reaches.year_of_discovery 2400
       (SM.Reaches.discovered_by "Dr. Mann"
         (SM.Reaches.name "Gargantua" SM.Reaches.new)))⟩

/-- C9: the default-substitution policy differs between the two variants.
In the runtime-optional variant, `build` substitutes the sentinel
`DEFAULT_DISCOVERED_BY` = "Unknown" for a missing `discovered_by` and
`DEFAULT_DISCOVERED_YEAR` = 2017 for a missing `year_of_discovery`, and
performs no substitution when they are present.  In the typestate variant
`build` returns the wrapped record unchanged, and on every reachable
terminal builder the two fields hold exactly the values the required
transitions supplied. -/
theorem default_substitution_policy :
    SB.DEFAULT_DISCOVERED_BY = "Unknown" ∧
    SB.DEFAULT_DISCOVERED_YEAR = 2017 ∧
    (∀ b : SB.BlackHoleBuilder, b.discovered_by = none →
      b.build.discovered_by = SB.DEFAULT_DISCOVERED_BY) ∧
    (∀ (b : SB.BlackHoleBuilder) (d : String), b.discovered_by = some d →
      b.build.discovered_by = d) ∧
    (∀ b : SB.BlackHoleBuilder, b.year_of_discovery = none →
      b.build.year_of_discovery = SB.DEFAULT_DISCOVERED_YEAR) ∧
    (∀ (b : SB.BlackHoleBuilder) (y : Nat), b.year_of_discovery = some y →
      b.build.year_of_discovery = y) ∧
    (∀ b : SM.BlackHoleBuilder SM.State.OptionalParamsBuilder,
      b.build = b.black_hole) ∧
    (∀ b : SM.BlackHoleBuilder SM.State.OptionalParamsBuilder,
      SM.Reaches SM.State.OptionalParamsBuilder b →
      ∃ (n d : String) (y : Nat) (cs : List SM.OptCall),
        b = SM.applyOpts (SM.mandatoryChain n d y) cs ∧
        b.build.discovered_by = d ∧
        b.build.year_of_discovery = y) := by
  refine ⟨rfl, rfl, ?_, ?_, ?_, ?_, fun b => rfl, ?_⟩
  · intro b h; simp [SB.BlackHoleBuilder.build, h]
  · intro b d h; simp [SB.BlackHoleBuilder.build, h]
  · intro b h; simp [SB.BlackHoleBuilder.build, h]
  · intro b y h; simp [SB.BlackHoleBuilder.build, h]
  · intro b h
    obtain ⟨n, d, y, cs, rfl⟩ :=
      (SM.reaches_stageSpec h :
        ∃ (n d : String) (y : Nat) (cs : List SM.OptCall),
          b = SM.applyOpts (SM.mandatoryChain n d y) cs)
    have hb := SM.applyOpts_black_hole cs (SM.mandatoryChain n d y)
    refine ⟨n, d, y, cs, rfl, ?_, ?_⟩ <;>
      simp [SM.BlackHoleBuilder.build, hb, SM.mandatoryChain_black_hole]

/-- Witness for C9: one concrete builder per hypothesis (discovered_by and
year missing, then present, then a concrete reachable typestate builder). -/
theorem default_substitution_policy_witness :
    (SB.BlackHoleBuilder.new "Gargantua").build.discovered_by =
      SB.DEFAULT_DISCOVERED_BY ∧
    ((SB.BlackHoleBuilder.new "Gargantua").discovered_by'
        (some "Dr. Mann")).build.discovered_by = "Dr. Mann" ∧
    (SB.BlackHoleBuilder.new "Gargantua").build.year_of_discovery =
      SB.DEFAULT_DISCOVERED_YEAR ∧
    ((SB.BlackHoleBuilder.new "Gargantua").year_of_discovery'
        (some 2400)).build.year_of_discovery = 2400 ∧
    (∃ (n d : String) (y : Nat) (cs : List SM.OptCall),
      SM.mandatoryChain "Gargantua" "Dr. Mann" 2400 =
        SM.applyOpts (SM.mandatoryChain n d y) cs ∧
      (SM.mandatoryChain "Gargantua" "Dr. Mann" 2400).build.discovered_by = d ∧
      (SM.mandatoryChain "Gargantua" "Dr. Mann"
          2400).build.year_of_discovery = y) :=
  ⟨default_substitution_policy.2.2.1 _ rfl,
   default_substitution_policy.2.2.2.1 _ _ rfl,
   default_substitution_policy.2.2.2.2.1 _ rfl,
   default_substitution_policy.2.2.2.2.2.1 _ _ rfl,
   default_substitution_policy.2.2.2.2.2.2.2 _
     (SM.Reaches.year_of_discovery 2400
       (SM.Reaches.discovered_by "Dr. Mann"
         (SM.Reaches.name "Gargantua" SM.Reaches.new)))⟩

/-- C10: in the runtime-optional variant every setter takes an
`Into<Option<T>>` value, so passing `None` explicitly clears the field:
setting a field and then setting it to `None` is the same as setting it to
`None` directly, building after a `None`-set gives the field its
never-set result (the declared default for the two defaulted fields,
absence for the rest) while leaving every other field of the built record
unchanged, and a freshly created builder builds to exactly those never-set
results. -/
theorem none_clears_field :
    ∀ (b : SB.BlackHoleBuilder) (n : String) (vs : Option String)
        (vn : Option Nat) (vr : Option Rat) (vt : Option Type'),
      ((b.discovered_by' vs).discovered_by' none = b.discovered_by' none ∧
        (b.discovered_by' none).build =
          { b.build with discovered_by := SB.DEFAULT_DISCOVERED_BY } ∧
        (SB.BlackHoleBuilder.new n).build.discovered_by =
          SB.DEFAULT_DISCOVERED_BY) ∧
      ((b.year_of_discovery' vn).year_of_discovery' none =
          b.year_of_discovery' none ∧
        (b.year_of_discovery' none).build =
          { b.build with year_of_discovery := SB.DEFAULT_DISCOVERED_YEAR } ∧
        (SB.BlackHoleBuilder.new n).build.year_of_discovery =
          SB.DEFAULT_DISCOVERED_YEAR) ∧
      ((b.mass' vr).mass' none = b.mass' none ∧
        (b.mass' none).build = { b.build with mass := none } ∧
        (SB.BlackHoleBuilder.new n).build.mass = none) ∧
      ((b.angular_momentum' vr).angular_momentum' none =
          b.angular_momentum' none ∧
        (b.angular_momentum' none).build =
          { b.build with angular_momentum := none } ∧
        (SB.BlackHoleBuilder.new n).build.angular_momentum = none) ∧
      ((b.electric_charge' vr).electric_charge' none =
          b.electric_charge' none ∧
        (b.electric_charge' none).build =
          { b.build with electric_charge := none } ∧
        (SB.BlackHoleBuilder.new n).build.electric_charge = none) ∧
      ((b.classification' vt).classification' none = b.classification' none ∧
        (b.classification' none).build =
          { b.build with classification := none } ∧
        (SB.BlackHoleBuilder.new n).build.classification = none) :=
  fun _ _ _ _ _ _ =>
    ⟨⟨rfl, rfl, rfl⟩, ⟨rfl, rfl, rfl⟩, ⟨rfl, rfl, rfl⟩, ⟨rfl, rfl, rfl⟩,
     ⟨rfl, rfl, rfl⟩, ⟨rfl, rfl, rfl⟩⟩
